import Mathlib

/-
  A shallow embedding of the sacco-platform web client
  (hooks useTransactions / usePaymentProviders / useMemberships /
  useSaccoDirectory / useServices / useLoans / useProfile / useAuth
  and the shared axios client), faithful to the TypeScript source.

  Runtime JSON/JS values are modelled by the `Json` type below.  The
  embedding keeps the distinction between JS `null` and `undefined`
  (`Json.null` vs `Json.undef`): property access on a non-object yields
  `undef`, and both are falsy.
-/

inductive Json where
  | null : Json
  | undef : Json
  | bool : Bool → Json
  | num : Int → Json
  | str : String → Json
  | arr : List Json → Json
  | obj : List (String × Json) → Json

/-- JS truthiness of a value (empty string, 0, false, null, undefined are falsy;
objects and arrays are always truthy). -/
def jsTruthy : Json → Bool
  | .null => false
  | .undef => false
  | .bool b => b
  | .num n => n != 0
  | .str s => s ≠ ""
  | .arr _ => true
  | .obj _ => true

/-- The JS `a || b` operator on values. -/
def jsOr (a b : Json) : Json := if jsTruthy a then a else b

/-- Optional-chaining property access `v?.k`: a field lookup on objects,
`undefined` on everything else (including null/undefined receivers). -/
def getFieldQ : Json → String → Json
  | .obj fields, k =>
    match fields.find? (fun p => p.1 = k) with
    | some p => p.2
    | none => .undef
  | _, _ => .undef

mutual

/-- JS string coercion of a value, as done by template literals and String(). -/
def jsToString : Json → String
  | .null => "null"
  | .undef => "undefined"
  | .bool b => if b then "true" else "false"
  | .num n => toString n
  | .str s => s
  | .arr xs => String.intercalate "," (jsArrayElems xs)
  | .obj _ => "[object Object]"

/-- Element strings for Array.prototype.join: null and undefined elements
become the empty string. -/
def jsArrayElems : List Json → List String
  | [] => []
  | .null :: xs => "" :: jsArrayElems xs
  | .undef :: xs => "" :: jsArrayElems xs
  | x :: xs => jsToString x :: jsArrayElems xs

end

/-- JS `xs.join(sep)` on a list of values. -/
def jsJoin (sep : String) (xs : List Json) : String :=
  String.intercalate sep (jsArrayElems xs)

/-- JS `Object.values(v)` (on strings: the characters; on arrays: the
elements; on primitives, null and undefined: empty, matching the
`data || \x7b\x7d` guards in the source). -/
def jsValues : Json → List Json
  | .obj fields => fields.map (·.2)
  | .arr xs => xs
  | .str s => s.toList.map (fun c => .str c.toString)
  | _ => []

/-- JS `Object.entries(v)` (with the same receiver coverage as
`jsValues`; arrays yield index/element pairs). -/
def jsEntries : Json → List (String × Json)
  | .obj fields => fields
  | .arr xs => (xs.enum.map (fun p => (toString p.1, p.2)))
  | .str s => (s.toList.enum.map (fun p => (toString p.1, Json.str p.2.toString)))
  | _ => []

/-- JS `xs.flat()`: one level of array flattening. -/
def jsFlat1 (xs : List Json) : List Json :=
  (xs.map (fun v => match v with | .arr ys => ys | v => [v])).flatten

/-- JS `v?.[0]` (index access is property access on the key 0; on a
nonempty string it yields the first character). -/
def jsIndex0 : Json → Json
  | .arr (x :: _) => x
  | .str s =>
    match s.toList with
    | c :: _ => .str c.toString
    | [] => .undef
  | v => getFieldQ v "0"

/-- The `Array.isArray(v) ? v[0] : v` idiom used on per-field error values. -/
def arrayFirstOrSelf : Json → Json
  | .arr (x :: _) => x
  | .arr [] => .undef
  | v => v

/-
  Response-shape normalization shared verbatim by all six list fetches
  (useApi.ts fetchMyTransactions, useServices.ts fetchServices /
  fetchSaccos, usePaymentProviders.ts fetchProviders / fetchMemberships,
  and fetchMyLoans):

    Array.isArray(response.data) ? response.data : response.data.results || []

  The `.results` access is a plain (non-optional) access: on a null or
  undefined body it throws a TypeError, which the surrounding catch
  handles; the settle functions below model that branch explicitly, so
  this function is only reached with a non-nullish body.
-/
def normalizeListResponse : Json → Json
  | .arr xs => .arr xs
  | d => jsOr (getFieldQ d "results") (.arr [])

/-- How a single fetch invocation settles, as observed by the catch
clause of the hooks: cancellation (axios code ERR_CANCELED after the
AbortController fired), a server response with an error status, a
request that got no response, an axios error carrying neither response
nor request, or a non-axios thrown Error. -/
inductive FetchOutcome where
  | canceled : FetchOutcome
  | success (body : Json) : FetchOutcome
  | httpError (payload : Json) (statusText : String) : FetchOutcome
  | networkError : FetchOutcome
  | setupError : FetchOutcome
  | jsError (msg : String) : FetchOutcome

/-- True for the outcomes the hooks treat as genuine (non-cancellation)
fetch failures. -/
def FetchOutcome.isGenuineFailure : FetchOutcome → Bool
  | .httpError _ _ => true
  | .networkError => true
  | .setupError => true
  | .jsError _ => true
  | .canceled => false
  | .success _ => false

/-- Fixed message used by every hook when a request was made but no
response was received. -/
def networkErrorMsg : String := "Network error. Please check your connection."

/-- Message of the TypeError thrown when the normalization reads
`.results` off a null body (text as produced by the engine, modulo
quoting). -/
def nullResultsReadMsg : String := "Cannot read properties of null (reading results)"

/-- Message of the TypeError thrown when the normalization reads
`.results` off an undefined body. -/
def undefResultsReadMsg : String := "Cannot read properties of undefined (reading results)"

/-
  useApi.ts — useTransactions hook state and its fetch lifecycle.
  `transactions` is kept as a raw Json value because the code stores
  whatever the normalization expression evaluates to.
-/
structure TransactionsHookState where
  transactions : Json
  isLoading : Bool
  error : Option Json
  isCreating : Bool
  createError : Option Json

def initialTransactionsState : TransactionsHookState :=
  { transactions := .arr [], isLoading := false, error := none,
    isCreating := false, createError := none }

/-- The synchronous prefix of fetchMyTransactions: abort the previous
request (its settlement is a separate `FetchOutcome.canceled` event),
then setIsLoading(true); setError(null). -/
def fetchMyTransactionsStart (s : TransactionsHookState) : TransactionsHookState :=
  { s with isLoading := true, error := none }

/-- Error-message chain of the fetchMyTransactions catch clause:
`data?.message || data?.error || fallback with statusText`. -/
def fetchTransactionsErrMsg (p : Json) (statusText : String) : Json :=
  jsOr (getFieldQ p "message")
    (jsOr (getFieldQ p "error")
      (.str ("Failed to fetch transactions: " ++ statusText)))

/-- State update applied when a fetchMyTransactions invocation settles
(the try/catch/finally body of useApi.ts lines 109-149). -/
def fetchMyTransactionsSettle (s : TransactionsHookState) (o : FetchOutcome) :
    TransactionsHookState :=
  match o with
  | .canceled => { s with isLoading := false }
  | .success .null =>
    { s with error := some (.str nullResultsReadMsg), transactions := .arr [],
             isLoading := false }
  | .success .undef =>
    { s with error := some (.str undefResultsReadMsg), transactions := .arr [],
             isLoading := false }
  | .success body =>
    { s with transactions := normalizeListResponse body, error := none,
             isLoading := false }
  | .httpError p st =>
    { s with error := some (fetchTransactionsErrMsg p st), transactions := .arr [],
             isLoading := false }
  | .networkError =>
    { s with error := some (.str networkErrorMsg), transactions := .arr [],
             isLoading := false }
  | .setupError =>
    { s with error := some (.str "Failed to fetch transactions."),
             transactions := .arr [], isLoading := false }
  | .jsError m =>
    { s with error := some (.str m), transactions := .arr [], isLoading := false }

/- usePaymentProviders.ts — usePaymentProviders hook. -/
structure ProvidersHookState where
  providers : Json
  isLoading : Bool
  error : Option Json

def fetchProvidersStart (s : ProvidersHookState) : ProvidersHookState :=
  { s with isLoading := true, error := none }

def fetchProvidersErrMsg (p : Json) (statusText : String) : Json :=
  jsOr (getFieldQ p "message")
    (jsOr (getFieldQ p "error")
      (.str ("Failed to fetch providers: " ++ statusText)))

def fetchProvidersSettle (s : ProvidersHookState) (o : FetchOutcome) :
    ProvidersHookState :=
  match o with
  | .canceled => { s with isLoading := false }
  | .success .null =>
    { s with error := some (.str nullResultsReadMsg), providers := .arr [],
             isLoading := false }
  | .success .undef =>
    { s with error := some (.str undefResultsReadMsg), providers := .arr [],
             isLoading := false }
  | .success body =>
    { s with providers := normalizeListResponse body, error := none,
             isLoading := false }
  | .httpError p st =>
    { s with error := some (fetchProvidersErrMsg p st), providers := .arr [],
             isLoading := false }
  | .networkError =>
    { s with error := some (.str networkErrorMsg), providers := .arr [],
             isLoading := false }
  | .setupError =>
    { s with error := some (.str "Failed to fetch payment providers."),
             providers := .arr [], isLoading := false }
  | .jsError m =>
    { s with error := some (.str m), providers := .arr [], isLoading := false }

/- usePaymentProviders.ts — useMemberships hook. -/
structure MembershipsHookState where
  memberships : Json
  isLoading : Bool
  error : Option Json

def fetchMembershipsStart (s : MembershipsHookState) : MembershipsHookState :=
  { s with isLoading := true, error := none }

def fetchMembershipsErrMsg (p : Json) (statusText : String) : Json :=
  jsOr (getFieldQ p "message")
    (jsOr (getFieldQ p "error")
      (.str ("Failed to fetch memberships: " ++ statusText)))

def fetchMembershipsSettle (s : MembershipsHookState) (o : FetchOutcome) :
    MembershipsHookState :=
  match o with
  | .canceled => { s with isLoading := false }
  | .success .null =>
    { s with error := some (.str nullResultsReadMsg), memberships := .arr [],
             isLoading := false }
  | .success .undef =>
    { s with error := some (.str undefResultsReadMsg), memberships := .arr [],
             isLoading := false }
  | .success body =>
    { s with memberships := normalizeListResponse body, error := none,
             isLoading := false }
  | .httpError p st =>
    { s with error := some (fetchMembershipsErrMsg p st), memberships := .arr [],
             isLoading := false }
  | .networkError =>
    { s with error := some (.str networkErrorMsg), memberships := .arr [],
             isLoading := false }
  | .setupError =>
    { s with error := some (.str "Failed to fetch memberships."),
             memberships := .arr [], isLoading := false }
  | .jsError m =>
    { s with error := some (.str m), memberships := .arr [], isLoading := false }

/- useServices.ts — useSaccoDirectory hook. -/
structure SaccosHookState where
  saccos : Json
  isLoading : Bool
  error : Option Json

def fetchSaccosStart (s : SaccosHookState) : SaccosHookState :=
  { s with isLoading := true, error := none }

def fetchSaccosErrMsg (p : Json) (statusText : String) : Json :=
  jsOr (getFieldQ p "message")
    (jsOr (getFieldQ p "error")
      (.str ("Failed to fetch saccos: " ++ statusText)))

def fetchSaccosSettle (s : SaccosHookState) (o : FetchOutcome) : SaccosHookState :=
  match o with
  | .canceled => { s with isLoading := false }
  | .success .null =>
    { s with error := some (.str nullResultsReadMsg), saccos := .arr [],
             isLoading := false }
  | .success .undef =>
    { s with error := some (.str undefResultsReadMsg), saccos := .arr [],
             isLoading := false }
  | .success body =>
    { s with saccos := normalizeListResponse body, error := none,
             isLoading := false }
  | .httpError p st =>
    { s with error := some (fetchSaccosErrMsg p st), saccos := .arr [],
             isLoading := false }
  | .networkError =>
    { s with error := some (.str networkErrorMsg), saccos := .arr [],
             isLoading := false }
  | .setupError =>
    { s with error := some (.str "Failed to fetch sacco directory."),
             saccos := .arr [], isLoading := false }
  | .jsError m =>
    { s with error := some (.str m), saccos := .arr [], isLoading := false }

/- useServices.ts — useServices hook (boolean error flag, no message). -/
structure ServicesHookState where
  services : Json
  isLoading : Bool
  isError : Bool

def fetchServicesStart (s : ServicesHookState) : ServicesHookState :=
  { s with isLoading := true, isError := false }

def fetchServicesSettle (s : ServicesHookState) (o : FetchOutcome) :
    ServicesHookState :=
  match o with
  | .canceled => { s with isLoading := false }
  | .success .null =>
    { s with isError := true, services := .arr [], isLoading := false }
  | .success .undef =>
    { s with isError := true, services := .arr [], isLoading := false }
  | .success body =>
    { s with services := normalizeListResponse body, isError := false,
             isLoading := false }
  | .httpError _ _ =>
    { s with isError := true, services := .arr [], isLoading := false }
  | .networkError =>
    { s with isError := true, services := .arr [], isLoading := false }
  | .setupError =>
    { s with isError := true, services := .arr [], isLoading := false }
  | .jsError _ =>
    { s with isError := true, services := .arr [], isLoading := false }

/- useLoans hook (unnamed source file): boolean fetch error flag plus
loan-application mutation state. -/
structure LoansHookState where
  loans : Json
  isLoading : Bool
  isError : Bool
  isApplying : Bool
  applyError : Option Json

def fetchMyLoansStart (s : LoansHookState) : LoansHookState :=
  { s with isLoading := true, isError := false }

def fetchMyLoansSettle (s : LoansHookState) (o : FetchOutcome) : LoansHookState :=
  match o with
  | .canceled => { s with isLoading := false }
  | .success .null =>
    { s with isError := true, loans := .arr [], isLoading := false }
  | .success .undef =>
    { s with isError := true, loans := .arr [], isLoading := false }
  | .success body =>
    { s with loans := normalizeListResponse body, isError := false,
             isLoading := false }
  | .httpError _ _ =>
    { s with isError := true, loans := .arr [], isLoading := false }
  | .networkError =>
    { s with isError := true, loans := .arr [], isLoading := false }
  | .setupError =>
    { s with isError := true, loans := .arr [], isLoading := false }
  | .jsError _ =>
    { s with isError := true, loans := .arr [], isLoading := false }

/-
  Mutation failures.  The catch clauses of createTransaction,
  applyForLoan, createProfile and updateProfile distinguish: an axios
  error with a response, an axios error with a request but no response,
  an axios error with neither, and a non-axios thrown Error.
-/
inductive MutFailure where
  | httpError (payload : Json) (statusText : String) : MutFailure
  | networkError : MutFailure
  | setupError : MutFailure
  | jsError (msg : String) : MutFailure

/-- createTransaction catch chain (useApi.ts lines 184-189):
`message || error || detail || Object.values(data || \x7b\x7d).flat().join(...) || fallback`. -/
def createTransactionErrMsg (p : Json) (statusText : String) : Json :=
  jsOr (getFieldQ p "message")
    (jsOr (getFieldQ p "error")
      (jsOr (getFieldQ p "detail")
        (jsOr (.str (jsJoin ", " (jsFlat1 (jsValues p))))
          (.str ("Failed to create transaction: " ++ statusText)))))

def createTransactionFailMsg : MutFailure → Json
  | .httpError p st => createTransactionErrMsg p st
  | .networkError => .str networkErrorMsg
  | .setupError => .str "Failed to create transaction."
  | .jsError m => .str m

/-- createTransaction on failure: setCreateError(errorMessage); throw err;
finally setIsCreating(false).  Nothing else is touched. -/
def createTransactionSettleFail (s : TransactionsHookState) (f : MutFailure) :
    TransactionsHookState :=
  { s with createError := some (createTransactionFailMsg f), isCreating := false }

/-- applyForLoan catch chain (same shape, loan wording). -/
def applyForLoanErrMsg (p : Json) (statusText : String) : Json :=
  jsOr (getFieldQ p "message")
    (jsOr (getFieldQ p "error")
      (jsOr (getFieldQ p "detail")
        (jsOr (.str (jsJoin ", " (jsFlat1 (jsValues p))))
          (.str ("Failed to apply for loan: " ++ statusText)))))

def applyForLoanFailMsg : MutFailure → Json
  | .httpError p st => applyForLoanErrMsg p st
  | .networkError => .str networkErrorMsg
  | .setupError => .str "Failed to apply for loan."
  | .jsError m => .str m

def applyForLoanSettleFail (s : LoansHookState) (f : MutFailure) : LoansHookState :=
  { s with applyError := some (applyForLoanFailMsg f), isApplying := false }

/- useServices.ts — useProfile hook state. -/
structure ProfileHookState where
  profile : Option Json
  isLoading : Bool
  isUpdating : Bool
  isCreating : Bool
  error : Option Json
  updateError : Option Json
  createError : Option Json

def initialProfileState : ProfileHookState :=
  { profile := none, isLoading := false, isUpdating := false, isCreating := false,
    error := none, updateError := none, createError := none }

/-- createProfile catch chain (same shape as createTransaction, profile
wording). -/
def createProfileErrMsg (p : Json) (statusText : String) : Json :=
  jsOr (getFieldQ p "message")
    (jsOr (getFieldQ p "error")
      (jsOr (getFieldQ p "detail")
        (jsOr (.str (jsJoin ", " (jsFlat1 (jsValues p))))
          (.str ("Failed to create profile: " ++ statusText)))))

def createProfileFailMsg : MutFailure → Json
  | .httpError p st => createProfileErrMsg p st
  | .networkError => .str networkErrorMsg
  | .setupError => .str "Failed to create profile."
  | .jsError m => .str m

def createProfileSettleFail (s : ProfileHookState) (f : MutFailure) :
    ProfileHookState :=
  { s with createError := some (createProfileFailMsg f), isCreating := false }

/-- updateProfile catch chain (useServices.ts lines 301-343): an if-chain
probing phone_number, bio, non_field_errors (first array element when an
array), then detail, message, error, then a literal string payload, then
a joined key/first-value rendering of the remaining entries, then a
statusText fallback. -/
def updateProfileErrMsg (p : Json) (statusText : String) : Json :=
  if jsTruthy (getFieldQ p "phone_number") then
    arrayFirstOrSelf (getFieldQ p "phone_number")
  else if jsTruthy (getFieldQ p "bio") then
    arrayFirstOrSelf (getFieldQ p "bio")
  else if jsTruthy (getFieldQ p "non_field_errors") then
    arrayFirstOrSelf (getFieldQ p "non_field_errors")
  else if jsTruthy (getFieldQ p "detail") then getFieldQ p "detail"
  else if jsTruthy (getFieldQ p "message") then getFieldQ p "message"
  else if jsTruthy (getFieldQ p "error") then getFieldQ p "error"
  else
    match p with
    | .str s => .str s
    | p =>
      let validationErrors :=
        String.intercalate ", "
          ((jsEntries p).map
            (fun kv => kv.1 ++ ": " ++ jsToString (arrayFirstOrSelf kv.2)))
      if validationErrors ≠ "" then .str validationErrors
      else
        .str ("Failed to update profile: "
          ++ (if statusText = "" then "Unknown error" else statusText))

def updateProfileFailMsg : MutFailure → Json
  | .httpError p st => updateProfileErrMsg p st
  | .networkError => .str networkErrorMsg
  | .setupError => .str "Failed to update profile."
  | .jsError m => .str m

def updateProfileSettleFail (s : ProfileHookState) (f : MutFailure) :
    ProfileHookState :=
  { s with updateError := some (updateProfileFailMsg f), isUpdating := false }

/-
  lib/axios.ts — the shared HTTP client.  Persisted state is the two
  localStorage slots keyed accessToken / refreshToken.
-/
structure TokenStorage where
  accessToken : Option String
  refreshToken : Option String

/-- Data of an HTTP response attached to an axios error. -/
structure AxiosRespInfo where
  status : Nat
  statusText : String
  payload : Json

/-- An axios rejection as seen by the response interceptor: it may or may
not carry a response. -/
structure AxiosErrInfo where
  response : Option AxiosRespInfo

/-- The error arm of the apiClient response interceptor (lib/axios.ts
lines 35-45): when the response status is 401, remove both token slots;
in every case return Promise.reject(error) with the original error. -/
def responseInterceptorOnError (st : TokenStorage) (e : AxiosErrInfo) :
    TokenStorage × AxiosErrInfo :=
  if (e.response.map (·.status)) = some 401 then
    ({ accessToken := none, refreshToken := none }, e)
  else
    (st, e)

/-
  useAuth hook (unnamed source file).  login/register/changePassword use
  a raw axios instance, not apiClient, so the interceptor above is not
  involved in their own requests.
-/
structure AuthState where
  storage : TokenStorage
  token : Option Json
  isAuthenticated : Bool
  isLoading : Bool
  isChangingPassword : Bool
  error : Option Json
  passwordChangeError : Option Json

def initialAuthState : AuthState :=
  { storage := { accessToken := none, refreshToken := none }, token := none,
    isAuthenticated := false, isLoading := false, isChangingPassword := false,
    error := none, passwordChangeError := none }

/-- Token extraction from a login/register response body:
`data.access || data.token || data.tokens?.access`.  The leading accesses
are plain, so the caller handles null/undefined bodies separately. -/
def extractAccessToken (d : Json) : Json :=
  jsOr (getFieldQ d "access")
    (jsOr (getFieldQ d "token") (getFieldQ (getFieldQ d "tokens") "access"))

/-- `data.refresh || data.tokens?.refresh`. -/
def extractRefreshToken (d : Json) : Json :=
  jsOr (getFieldQ d "refresh") (getFieldQ (getFieldQ d "tokens") "refresh")

/-- How a login/register request settles at the transport. -/
inductive AuthOutcome where
  | success (body : Json) : AuthOutcome
  | httpError (payload : Json) (status : Nat) (statusText : String) : AuthOutcome
  | networkError : AuthOutcome
  | setupError : AuthOutcome

/-- Login error-message chain for a server-rejected attempt (if-chain in
the login catch clause): detail, message, error, non_field_errors, a
string payload, email, password, then status-specific defaults. -/
def loginHttpErrMsg (p : Json) (status : Nat) (statusText : String) : Json :=
  if jsTruthy (getFieldQ p "detail") then getFieldQ p "detail"
  else if jsTruthy (getFieldQ p "message") then getFieldQ p "message"
  else if jsTruthy (getFieldQ p "error") then getFieldQ p "error"
  else if jsTruthy (getFieldQ p "non_field_errors") then
    arrayFirstOrSelf (getFieldQ p "non_field_errors")
  else
    match p with
    | .str s => .str s
    | p =>
      if jsTruthy (getFieldQ p "email") then arrayFirstOrSelf (getFieldQ p "email")
      else if jsTruthy (getFieldQ p "password") then
        arrayFirstOrSelf (getFieldQ p "password")
      else if status = 401 then .str "Invalid credentials"
      else if status = 400 then .str "Invalid request. Please check your credentials."
      else
        .str ("Login failed: "
          ++ (if statusText = "" then "Unknown error" else statusText))

/-- Message of the TypeError thrown by `response.data.access` on a null
body. -/
def nullAccessReadMsg : String := "Cannot read properties of null (reading access)"

/-- Message of the TypeError thrown by `response.data.access` on an
undefined body. -/
def undefAccessReadMsg : String := "Cannot read properties of undefined (reading access)"

/-- The shared tail of the login catch clause: setError(errorMessage);
setIsAuthenticated(false); setToken(null); remove both storage slots;
throw new Error(errorMessage); finally setIsLoading(false). -/
def loginCatch (s : AuthState) (msg : Json) : AuthState × Except String Unit :=
  ({ s with error := some msg, isAuthenticated := false, token := none,
            storage := { accessToken := none, refreshToken := none },
            isLoading := false },
   .error (jsToString msg))

/-- The login operation: setIsLoading(true); setError(null); POST to the
login endpoint; on success extract and persist the tokens (a missing
access token throws and is handled by the same catch clause as transport
failures). -/
def login (s0 : AuthState) (o : AuthOutcome) : AuthState × Except String Unit :=
  let s := { s0 with isLoading := true, error := none }
  match o with
  | .success .null => loginCatch s (.str nullAccessReadMsg)
  | .success .undef => loginCatch s (.str undefAccessReadMsg)
  | .success body =>
    let access := extractAccessToken body
    let refresh := extractRefreshToken body
    if jsTruthy access then
      let st1 := { s.storage with accessToken := some (jsToString access) }
      let st2 :=
        if jsTruthy refresh then { st1 with refreshToken := some (jsToString refresh) }
        else st1
      ({ s with storage := st2, token := some access, isAuthenticated := true,
                error := none, isLoading := false },
       .ok ())
    else loginCatch s (.str "No access token received from server")
  | .httpError p code st => loginCatch s (loginHttpErrMsg p code st)
  | .networkError => loginCatch s (.str networkErrorMsg)
  | .setupError => loginCatch s (.str "An error occurred. Please try again.")

/-- registerUser catch chain:
`message || error || email?.[0] || password?.[0] || fallback`. -/
def registerErrMsg (p : Json) (statusText : String) : Json :=
  jsOr (getFieldQ p "message")
    (jsOr (getFieldQ p "error")
      (jsOr (jsIndex0 (getFieldQ p "email"))
        (jsOr (jsIndex0 (getFieldQ p "password"))
          (.str ("Registration failed: " ++ statusText)))))

/-- The registerUser catch tail: setError; setIsAuthenticated(false);
setToken(null); re-throw the original error (storage is NOT touched);
finally setIsLoading(false). -/
def registerCatch (s : AuthState) (msg : Json) : AuthState × Except String Unit :=
  ({ s with error := some msg, isAuthenticated := false, token := none,
            isLoading := false },
   .error (jsToString msg))

/-- The registerUser operation: on success, tokens are persisted and the
user authenticated only when an access token is present; their absence
is tolerated (setError(null) and a normal return). -/
def registerUser (s0 : AuthState) (o : AuthOutcome) : AuthState × Except String Unit :=
  let s := { s0 with isLoading := true, error := none }
  match o with
  | .success .null => registerCatch s (.str nullAccessReadMsg)
  | .success .undef => registerCatch s (.str undefAccessReadMsg)
  | .success body =>
    let access := extractAccessToken body
    let refresh := extractRefreshToken body
    if jsTruthy access then
      let st1 := { s.storage with accessToken := some (jsToString access) }
      let st2 :=
        if jsTruthy refresh then { st1 with refreshToken := some (jsToString refresh) }
        else st1
      ({ s with storage := st2, token := some access, isAuthenticated := true,
                error := none, isLoading := false },
       .ok ())
    else ({ s with error := none, isLoading := false }, .ok ())
  | .httpError p _ st => registerCatch s (registerErrMsg p st)
  | .networkError => registerCatch s (.str networkErrorMsg)
  | .setupError => registerCatch s (.str "Registration failed. Please try again.")

/- changePassword: the part of the operation up to the network boundary. -/
structure ChangePasswordData where
  old_password : String
  new_password : String
  confirm_password : String

/-- What changePassword does before (or instead of) any network call:
either a local validation failure (thrown before the try block, zero
network calls), a missing-token failure (thrown inside the try, still
before any network call), or the POST it would issue with the manually
built bearer header. -/
inductive ChangePasswordPre where
  | localValidationError (msg : String) : ChangePasswordPre
  | noTokenError (msg : String) : ChangePasswordPre
  | post (oldPassword newPassword authHeader : String) : ChangePasswordPre

/-- The changePassword control flow up to the network call: the
new/confirm equality check, then the minimum-length (6) check, then the
stored-token check, then the POST with an Authorization header built
from the stored access token. -/
def changePasswordPre (storedAccess : Option String) (d : ChangePasswordData) :
    ChangePasswordPre :=
  if d.new_password ≠ d.confirm_password then
    .localValidationError "New passwords do not match"
  else if d.new_password.length < 6 then
    .localValidationError "New password must be at least 6 characters long"
  else
    match storedAccess with
    | none => .noTokenError "You must be logged in to change your password"
    | some t =>
      if t = "" then .noTokenError "You must be logged in to change your password"
      else .post d.old_password d.new_password ("Bearer " ++ t)

/-- Helper for C9: the session-related fields of an auth-operation result
are in their unauthenticated values. -/
def sessionCleared (r : AuthState × Except String Unit) : Prop :=
  r.1.storage.accessToken = none ∧ r.1.storage.refreshToken = none ∧
  r.1.isAuthenticated = false ∧ r.1.token = none

/-- C3: for every response with HTTP status 401 observed by the shared
client, the response interceptor removes both persisted token slots and
re-raises the original error unchanged. -/
theorem responseInterceptor401ClearsTokensAndRethrows
    (st : TokenStorage) (e : AxiosErrInfo) (r : AxiosRespInfo)
    (hr : e.response = some r) (h401 : r.status = 401) :
    (responseInterceptorOnError st e).1.accessToken = none ∧
    (responseInterceptorOnError st e).1.refreshToken = none ∧
    (responseInterceptorOnError st e).2 = e := by
  simp [responseInterceptorOnError, hr, h401]

/-- Witness for C3 at a concrete 401 error. -/
theorem responseInterceptor401ClearsTokensAndRethrowsWitness :
    (responseInterceptorOnError
        { accessToken := some "A", refreshToken := some "R" }
        { response := some { status := 401, statusText := "Unauthorized",
                             payload := Json.null } }).1.accessToken = none ∧
    (responseInterceptorOnError
        { accessToken := some "A", refreshToken := some "R" }
        { response := some { status := 401, statusText := "Unauthorized",
                             payload := Json.null } }).1.refreshToken = none ∧
    (responseInterceptorOnError
        { accessToken := some "A", refreshToken := some "R" }
        { response := some { status := 401, statusText := "Unauthorized",
                             payload := Json.null } }).2
      = { response := some { status := 401, statusText := "Unauthorized",
                             payload := Json.null } } :=
  responseInterceptor401ClearsTokensAndRethrows
    { accessToken := some "A", refreshToken := some "R" }
    { response := some { status := 401, statusText := "Unauthorized",
                         payload := Json.null } }
    { status := 401, statusText := "Unauthorized", payload := Json.null }
    rfl rfl

/-- C2: evidence of the divergence.  After two consecutive fetch starts
on one useTransactions instance, the stale (aborted) settlement of the
first request leaves the data and error fields untouched, but its
finally clause still sets isLoading to false while the second request is
in flight — an observable effect the claim forbids. -/
theorem staleCancellationSettlementClearsIsLoading :
    (fetchMyTransactionsStart (fetchMyTransactionsStart initialTransactionsState)).isLoading
        = true ∧
    (fetchMyTransactionsSettle
        (fetchMyTransactionsStart (fetchMyTransactionsStart initialTransactionsState))
        .canceled).isLoading = false ∧
    (fetchMyTransactionsSettle
        (fetchMyTransactionsStart (fetchMyTransactionsStart initialTransactionsState))
        .canceled).error
      = (fetchMyTransactionsStart (fetchMyTransactionsStart initialTransactionsState)).error ∧
    (fetchMyTransactionsSettle
        (fetchMyTransactionsStart (fetchMyTransactionsStart initialTransactionsState))
        .canceled).transactions
      = (fetchMyTransactionsStart (fetchMyTransactionsStart initialTransactionsState)).transactions :=
  ⟨rfl, rfl, rfl, rfl⟩

/-- C5: changePassword rejects a new/confirm mismatch and a too-short new
password locally, with the specific messages, before any network call
(the localValidationError constructor is raised strictly before the
request is built); includes the two concrete instances of the claim. -/
theorem changePasswordLocalValidation
    (tok : Option String) (d : ChangePasswordData) :
    (d.new_password ≠ d.confirm_password →
      changePasswordPre tok d = .localValidationError "New passwords do not match") ∧
    (d.new_password = d.confirm_password → d.new_password.length < 6 →
      changePasswordPre tok d
        = .localValidationError "New password must be at least 6 characters long") ∧
    changePasswordPre (some "tok")
        { old_password := "old", new_password := "abc12", confirm_password := "abc12" }
      = .localValidationError "New password must be at least 6 characters long" ∧
    changePasswordPre (some "tok")
        { old_password := "old", new_password := "abcdef", confirm_password := "xyzxyz" }
      = .localValidationError "New passwords do not match" := by
  refine ⟨fun h => ?_, fun h1 h2 => ?_, ?_, ?_⟩
  · simp [changePasswordPre, h]
  · simp [changePasswordPre, h1] at h2 ⊢
    simp [h2]
  · rfl
  · rfl

/-- Witness for C5 at the two concrete inputs of the claim. -/
theorem changePasswordLocalValidationWitness :
    changePasswordPre (some "T")
        { old_password := "o", new_password := "short", confirm_password := "short" }
      = .localValidationError "New password must be at least 6 characters long" ∧
    changePasswordPre (some "T")
        { old_password := "o", new_password := "abcdef", confirm_password := "xyzxyz" }
      = .localValidationError "New passwords do not match" :=
  ⟨(changePasswordLocalValidation (some "T")
      { old_password := "o", new_password := "short", confirm_password := "short" }).2.1
        rfl (by decide),
   (changePasswordLocalValidation (some "T")
      { old_password := "o", new_password := "abcdef", confirm_password := "xyzxyz" }).1
        (by decide)⟩

/-- C6: a failure of createTransaction, applyForLoan, createProfile or
updateProfile leaves the previously loaded list/record data unchanged,
and touches only the mutation-specific error field and loading flag. -/
theorem mutationFailurePreservesLoadedData
    (ts : TransactionsHookState) (ls : LoansHookState) (ps : ProfileHookState)
    (f : MutFailure) :
    ((createTransactionSettleFail ts f).transactions = ts.transactions ∧
     (createTransactionSettleFail ts f).error = ts.error ∧
     (createTransactionSettleFail ts f).isLoading = ts.isLoading) ∧
    ((applyForLoanSettleFail ls f).loans = ls.loans ∧
     (applyForLoanSettleFail ls f).isError = ls.isError ∧
     (applyForLoanSettleFail ls f).isLoading = ls.isLoading) ∧
    ((createProfileSettleFail ps f).profile = ps.profile ∧
     (createProfileSettleFail ps f).error = ps.error ∧
     (createProfileSettleFail ps f).isLoading = ps.isLoading ∧
     (createProfileSettleFail ps f).isUpdating = ps.isUpdating ∧
     (createProfileSettleFail ps f).updateError = ps.updateError) ∧
    ((updateProfileSettleFail ps f).profile = ps.profile ∧
     (updateProfileSettleFail ps f).error = ps.error ∧
     (updateProfileSettleFail ps f).isLoading = ps.isLoading ∧
     (updateProfileSettleFail ps f).isCreating = ps.isCreating ∧
     (updateProfileSettleFail ps f).createError = ps.createError) := by
  simp [createTransactionSettleFail, applyForLoanSettleFail,
        createProfileSettleFail, updateProfileSettleFail]

/-- C10: every genuine (non-cancellation) fetch failure resets the data
list of the hook to the empty list, in addition to recording the error
(a message for the transactions / providers / memberships / saccos
hooks, a boolean flag for the services / loans hooks). -/
theorem fetchFailureResetsDataToEmpty
    (ts : TransactionsHookState) (prs : ProvidersHookState)
    (ms : MembershipsHookState) (ss : SaccosHookState)
    (svs : ServicesHookState) (ls : LoansHookState)
    (o : FetchOutcome) (h : o.isGenuineFailure = true) :
    ((fetchMyTransactionsSettle ts o).transactions = .arr [] ∧
     (fetchMyTransactionsSettle ts o).error.isSome = true) ∧
    ((fetchProvidersSettle prs o).providers = .arr [] ∧
     (fetchProvidersSettle prs o).error.isSome = true) ∧
    ((fetchMembershipsSettle ms o).memberships = .arr [] ∧
     (fetchMembershipsSettle ms o).error.isSome = true) ∧
    ((fetchSaccosSettle ss o).saccos = .arr [] ∧
     (fetchSaccosSettle ss o).error.isSome = true) ∧
    ((fetchServicesSettle svs o).services = .arr [] ∧
     (fetchServicesSettle svs o).isError = true) ∧
    ((fetchMyLoansSettle ls o).loans = .arr [] ∧
     (fetchMyLoansSettle ls o).isError = true) := by
  cases o <;>
    simp_all [FetchOutcome.isGenuineFailure, fetchMyTransactionsSettle,
      fetchProvidersSettle, fetchMembershipsSettle, fetchSaccosSettle,
      fetchServicesSettle, fetchMyLoansSettle]

/-- Witness for C10 at a concrete network failure. -/
theorem fetchFailureResetsDataToEmptyWitness :
    ((fetchMyTransactionsSettle initialTransactionsState .networkError).transactions
        = .arr [] ∧
     (fetchMyTransactionsSettle initialTransactionsState .networkError).error.isSome
        = true) ∧
    ((fetchProvidersSettle { providers := .arr [.str "p"], isLoading := true,
                             error := none } .networkError).providers = .arr [] ∧
     (fetchProvidersSettle { providers := .arr [.str "p"], isLoading := true,
                             error := none } .networkError).error.isSome = true) ∧
    ((fetchMembershipsSettle { memberships := .arr [], isLoading := true,
                               error := none } .networkError).memberships = .arr [] ∧
     (fetchMembershipsSettle { memberships := .arr [], isLoading := true,
                               error := none } .networkError).error.isSome = true) ∧
    ((fetchSaccosSettle { saccos := .arr [], isLoading := true,
                          error := none } .networkError).saccos = .arr [] ∧
     (fetchSaccosSettle { saccos := .arr [], isLoading := true,
                          error := none } .networkError).error.isSome = true) ∧
    ((fetchServicesSettle { services := .arr [], isLoading := true,
                            isError := false } .networkError).services = .arr [] ∧
     (fetchServicesSettle { services := .arr [], isLoading := true,
                            isError := false } .networkError).isError = true) ∧
    ((fetchMyLoansSettle { loans := .arr [], isLoading := true, isError := false,
                           isApplying := false, applyError := none }
        .networkError).loans = .arr [] ∧
     (fetchMyLoansSettle { loans := .arr [], isLoading := true, isError := false,
                           isApplying := false, applyError := none }
        .networkError).isError = true) :=
  fetchFailureResetsDataToEmpty initialTransactionsState
    { providers := .arr [.str "p"], isLoading := true, error := none }
    { memberships := .arr [], isLoading := true, error := none }
    { saccos := .arr [], isLoading := true, error := none }
    { services := .arr [], isLoading := true, isError := false }
    { loans := .arr [], isLoading := true, isError := false,
      isApplying := false, applyError := none }
    .networkError rfl

/-- C1 counterexample: a response body whose results field holds a truthy
non-array value (here the number 1) is stored unchanged by the fetch,
not replaced by the empty list the claim requires for such a shape. -/
theorem fetchStoresTruthyNonArrayResultsCounterexample :
    getFieldQ (Json.obj [("results", Json.num 1)]) "results" = Json.num 1 ∧
    (fetchMyTransactionsSettle initialTransactionsState
        (.success (Json.obj [("results", Json.num 1)]))).transactions = Json.num 1 ∧
    Json.num 1 ≠ Json.arr [] :=
  ⟨rfl, rfl, fun h => Json.noConfusion h⟩

/-- C1 (amended): every one of the six list fetches stores exactly the
shared normalization of the body; a bare array is stored unchanged and a
results field holding an array yields that inner array; any other shape
yields the empty list, EXCEPT that a body whose results field holds a
truthy non-array value has that value stored unchanged (a null body also
ends with the empty list, via the TypeError catch path). -/
theorem fetchResponseNormalizationAmended
    (ts : TransactionsHookState) (prs : ProvidersHookState)
    (ms : MembershipsHookState) (ss : SaccosHookState)
    (svs : ServicesHookState) (ls : LoansHookState)
    (body : Json) (hn : body ≠ .null) (hu : body ≠ .undef) :
    ((fetchMyTransactionsSettle ts (.success body)).transactions
        = normalizeListResponse body ∧
     (fetchProvidersSettle prs (.success body)).providers
        = normalizeListResponse body ∧
     (fetchMembershipsSettle ms (.success body)).memberships
        = normalizeListResponse body ∧
     (fetchSaccosSettle ss (.success body)).saccos = normalizeListResponse body ∧
     (fetchServicesSettle svs (.success body)).services = normalizeListResponse body ∧
     (fetchMyLoansSettle ls (.success body)).loans = normalizeListResponse body) ∧
    (∀ xs, body = .arr xs → normalizeListResponse body = .arr xs) ∧
    (∀ ys, getFieldQ body "results" = .arr ys →
      normalizeListResponse body = .arr ys) ∧
    ((∀ xs, body ≠ .arr xs) → jsTruthy (getFieldQ body "results") = true →
      normalizeListResponse body = getFieldQ body "results") ∧
    ((∀ xs, body ≠ .arr xs) → jsTruthy (getFieldQ body "results") = false →
      normalizeListResponse body = .arr []) ∧
    ((fetchMyTransactionsSettle ts (.success .null)).transactions = .arr [] ∧
     (fetchProvidersSettle prs (.success .null)).providers = .arr [] ∧
     (fetchMembershipsSettle ms (.success .null)).memberships = .arr [] ∧
     (fetchSaccosSettle ss (.success .null)).saccos = .arr [] ∧
     (fetchServicesSettle svs (.success .null)).services = .arr [] ∧
     (fetchMyLoansSettle ls (.success .null)).loans = .arr []) := by
  refine ⟨?_, ?_, ?_, ?_, ?_, ?_⟩
  · cases body <;>
      simp_all [fetchMyTransactionsSettle, fetchProvidersSettle,
        fetchMembershipsSettle, fetchSaccosSettle, fetchServicesSettle,
        fetchMyLoansSettle]
  · intro xs h
    subst h
    rfl
  · intro ys h
    cases body <;> simp_all [normalizeListResponse, getFieldQ, jsOr, jsTruthy]
  · intro hna ht
    cases body <;> simp_all [normalizeListResponse, getFieldQ, jsOr, jsTruthy]
  · intro hna ht
    cases body <;> simp_all [normalizeListResponse, getFieldQ, jsOr, jsTruthy]
  · simp [fetchMyTransactionsSettle, fetchProvidersSettle, fetchMembershipsSettle,
      fetchSaccosSettle, fetchServicesSettle, fetchMyLoansSettle]

/-- Witness for C1 (amended) at a concrete enveloped body. -/
theorem fetchResponseNormalizationAmendedWitness :
    (fetchMyTransactionsSettle initialTransactionsState
        (.success (Json.obj [("results", Json.arr [Json.num 7])]))).transactions
      = normalizeListResponse (Json.obj [("results", Json.arr [Json.num 7])]) ∧
    normalizeListResponse (Json.obj [("results", Json.arr [Json.num 7])])
      = Json.arr [Json.num 7] :=
  ⟨(fetchResponseNormalizationAmended initialTransactionsState
      { providers := .arr [], isLoading := false, error := none }
      { memberships := .arr [], isLoading := false, error := none }
      { saccos := .arr [], isLoading := false, error := none }
      { services := .arr [], isLoading := false, isError := false }
      { loans := .arr [], isLoading := false, isError := false,
        isApplying := false, applyError := none }
      (Json.obj [("results", Json.arr [Json.num 7])])
      (fun h => Json.noConfusion h) (fun h => Json.noConfusion h)).1.1,
   (fetchResponseNormalizationAmended initialTransactionsState
      { providers := .arr [], isLoading := false, error := none }
      { memberships := .arr [], isLoading := false, error := none }
      { saccos := .arr [], isLoading := false, error := none }
      { services := .arr [], isLoading := false, isError := false }
      { loans := .arr [], isLoading := false, isError := false,
        isApplying := false, applyError := none }
      (Json.obj [("results", Json.arr [Json.num 7])])
      (fun h => Json.noConfusion h) (fun h => Json.noConfusion h)).2.2.1
        [Json.num 7] rfl⟩

/-- C7 counterexample: createTransaction probes message before detail, so
a payload carrying both records the message value, not the detail value
the claimed order would pick. -/
theorem createTransactionMessageBeforeDetailCounterexample :
    createTransactionErrMsg
        (Json.obj [("detail", Json.str "D"), ("message", Json.str "M")]) "X"
      = Json.str "M" ∧
    (createTransactionSettleFail initialTransactionsState
        (.httpError (Json.obj [("detail", Json.str "D"), ("message", Json.str "M")])
          "X")).createError = some (Json.str "M") ∧
    Json.str "M" ≠ Json.str "D" :=
  ⟨rfl, rfl, fun h => by injection h with h2; exact absurd h2 (by decide)⟩

/-- C7 (amended): the claimed probing order (recognized per-field arrays,
then non_field_errors, then detail, then message, then error, then a
literal string payload, then a flattened join, then the statusText
fallback, with the generic network message when no response arrived)
holds for updateProfile; createTransaction, applyForLoan and
createProfile instead probe message, then error, then detail, then a
flattened join of the payload values, then the statusText fallback.  For
a profile update failing with a phone_number error array, the recorded
message is exactly its first element. -/
theorem mutationErrorMessageOrderAmended
    (p : Json) (st : String) (ps : ProfileHookState) (ts : TransactionsHookState) :
    ((updateProfileSettleFail ps (.httpError p st)).updateError
        = some (updateProfileErrMsg p st)) ∧
    (∀ v l, getFieldQ p "phone_number" = .arr (v :: l) →
      updateProfileErrMsg p st = v) ∧
    (jsTruthy (getFieldQ p "phone_number") = false →
      ∀ v l, getFieldQ p "bio" = .arr (v :: l) → updateProfileErrMsg p st = v) ∧
    (jsTruthy (getFieldQ p "phone_number") = false →
      jsTruthy (getFieldQ p "bio") = false →
      ∀ v l, getFieldQ p "non_field_errors" = .arr (v :: l) →
        updateProfileErrMsg p st = v) ∧
    (jsTruthy (getFieldQ p "phone_number") = false →
      jsTruthy (getFieldQ p "bio") = false →
      jsTruthy (getFieldQ p "non_field_errors") = false →
      jsTruthy (getFieldQ p "detail") = true →
      updateProfileErrMsg p st = getFieldQ p "detail") ∧
    (jsTruthy (getFieldQ p "phone_number") = false →
      jsTruthy (getFieldQ p "bio") = false →
      jsTruthy (getFieldQ p "non_field_errors") = false →
      jsTruthy (getFieldQ p "detail") = false →
      jsTruthy (getFieldQ p "message") = true →
      updateProfileErrMsg p st = getFieldQ p "message") ∧
    (jsTruthy (getFieldQ p "phone_number") = false →
      jsTruthy (getFieldQ p "bio") = false →
      jsTruthy (getFieldQ p "non_field_errors") = false →
      jsTruthy (getFieldQ p "detail") = false →
      jsTruthy (getFieldQ p "message") = false →
      jsTruthy (getFieldQ p "error") = true →
      updateProfileErrMsg p st = getFieldQ p "error") ∧
    (∀ s, p = .str s → updateProfileErrMsg p st = .str s) ∧
    ((updateProfileSettleFail ps .networkError).updateError
        = some (.str networkErrorMsg)) ∧
    (jsTruthy (getFieldQ p "message") = true →
      createTransactionErrMsg p st = getFieldQ p "message" ∧
      applyForLoanErrMsg p st = getFieldQ p "message" ∧
      createProfileErrMsg p st = getFieldQ p "message") ∧
    (jsTruthy (getFieldQ p "message") = false →
      jsTruthy (getFieldQ p "error") = true →
      createTransactionErrMsg p st = getFieldQ p "error" ∧
      applyForLoanErrMsg p st = getFieldQ p "error" ∧
      createProfileErrMsg p st = getFieldQ p "error") ∧
    (jsTruthy (getFieldQ p "message") = false →
      jsTruthy (getFieldQ p "error") = false →
      jsTruthy (getFieldQ p "detail") = true →
      createTransactionErrMsg p st = getFieldQ p "detail" ∧
      applyForLoanErrMsg p st = getFieldQ p "detail" ∧
      createProfileErrMsg p st = getFieldQ p "detail") ∧
    (jsTruthy (getFieldQ p "message") = false →
      jsTruthy (getFieldQ p "error") = false →
      jsTruthy (getFieldQ p "detail") = false →
      jsJoin ", " (jsFlat1 (jsValues p)) ≠ "" →
      createTransactionErrMsg p st = .str (jsJoin ", " (jsFlat1 (jsValues p)))) ∧
    (jsTruthy (getFieldQ p "message") = false →
      jsTruthy (getFieldQ p "error") = false →
      jsTruthy (getFieldQ p "detail") = false →
      jsJoin ", " (jsFlat1 (jsValues p)) = "" →
      createTransactionErrMsg p st
        = .str ("Failed to create transaction: " ++ st)) ∧
    ((createTransactionSettleFail ts .networkError).createError
        = some (.str networkErrorMsg)) ∧
    ((updateProfileSettleFail initialProfileState
        (.httpError (Json.obj [("phone_number", Json.arr [Json.str "too short"])])
          st)).updateError = some (Json.str "too short")) := by
  refine ⟨rfl, ?_, ?_, ?_, ?_, ?_, ?_, ?_, rfl, ?_, ?_, ?_, ?_, ?_, rfl, ?_⟩
  · intro v l h
    simp [updateProfileErrMsg, h, jsTruthy, arrayFirstOrSelf]
  · intro h1 v l h
    simp only [updateProfileErrMsg, h1, h]
    simp [jsTruthy, arrayFirstOrSelf]
  · intro h1 h2 v l h
    simp only [updateProfileErrMsg, h1, h2, h]
    simp [jsTruthy, arrayFirstOrSelf]
  · intro h1 h2 h3 h4
    simp [updateProfileErrMsg, h1, h2, h3, h4]
  · intro h1 h2 h3 h4 h5
    simp [updateProfileErrMsg, h1, h2, h3, h4, h5]
  · intro h1 h2 h3 h4 h5 h6
    simp [updateProfileErrMsg, h1, h2, h3, h4, h5, h6]
  · intro s h
    subst h
    simp [updateProfileErrMsg, getFieldQ, jsTruthy]
  · intro h1
    simp [createTransactionErrMsg, applyForLoanErrMsg, createProfileErrMsg,
      jsOr, h1]
  · intro h1 h2
    simp [createTransactionErrMsg, applyForLoanErrMsg, createProfileErrMsg,
      jsOr, h1, h2]
  · intro h1 h2 h3
    simp [createTransactionErrMsg, applyForLoanErrMsg, createProfileErrMsg,
      jsOr, h1, h2, h3]
  · intro h1 h2 h3 h4
    simp only [createTransactionErrMsg, jsOr, h1, h2, h3]
    simp [jsTruthy, h4]
  · intro h1 h2 h3 h4
    simp only [createTransactionErrMsg, jsOr, h1, h2, h3]
    simp [jsTruthy, h4]
  · simp [updateProfileSettleFail, updateProfileFailMsg, updateProfileErrMsg,
      getFieldQ, jsTruthy, arrayFirstOrSelf]

/-- Witness for C7 (amended): the phone_number instance and the
message-first order of createTransaction, at concrete payloads. -/
theorem mutationErrorMessageOrderAmendedWitness :
    updateProfileErrMsg (Json.obj [("phone_number", Json.arr [Json.str "too short"])])
        "Bad Request" = Json.str "too short" ∧
    createTransactionErrMsg (Json.obj [("message", Json.str "M")]) "Bad Request"
      = Json.str "M" :=
  ⟨(mutationErrorMessageOrderAmended
      (Json.obj [("phone_number", Json.arr [Json.str "too short"])]) "Bad Request"
      initialProfileState initialTransactionsState).2.1
        (Json.str "too short") [] rfl,
   ((mutationErrorMessageOrderAmended (Json.obj [("message", Json.str "M")])
      "Bad Request" initialProfileState initialTransactionsState).2.2.2.2.2.2.2.2.2.1
        rfl).1⟩

/-- C8 counterexample: a fetch failure whose payload carries only a
detail field falls through to the statusText fallback — the detail value
is never probed, contrary to the claimed hierarchy. -/
theorem fetchErrMsgIgnoresDetailCounterexample :
    fetchTransactionsErrMsg (Json.obj [("detail", Json.str "D")]) "Bad Request"
      = Json.str "Failed to fetch transactions: Bad Request" ∧
    (fetchMyTransactionsSettle initialTransactionsState
        (.httpError (Json.obj [("detail", Json.str "D")]) "Bad Request")).error
      = some (Json.str "Failed to fetch transactions: Bad Request") ∧
    Json.str "Failed to fetch transactions: Bad Request" ≠ Json.str "D" :=
  ⟨rfl, rfl, fun h => by injection h with h2; exact absurd h2 (by decide)⟩

/-- C8 (amended): the message-extracting fetches (transactions,
providers, memberships, saccos) probe the payload message field, then
the error field, then fall back to a message built from the HTTP status
text — detail is not probed; when no response was received at all, the
fixed generic network message is recorded.  (The services and loans
fetches record only a boolean error flag, with no message.) -/
theorem fetchErrorMessageHierarchyAmended
    (p : Json) (st : String) (ts : TransactionsHookState)
    (prs : ProvidersHookState) (ms : MembershipsHookState) (ss : SaccosHookState) :
    (jsTruthy (getFieldQ p "message") = true →
      fetchTransactionsErrMsg p st = getFieldQ p "message" ∧
      fetchProvidersErrMsg p st = getFieldQ p "message" ∧
      fetchMembershipsErrMsg p st = getFieldQ p "message" ∧
      fetchSaccosErrMsg p st = getFieldQ p "message") ∧
    (jsTruthy (getFieldQ p "message") = false →
      jsTruthy (getFieldQ p "error") = true →
      fetchTransactionsErrMsg p st = getFieldQ p "error" ∧
      fetchProvidersErrMsg p st = getFieldQ p "error" ∧
      fetchMembershipsErrMsg p st = getFieldQ p "error" ∧
      fetchSaccosErrMsg p st = getFieldQ p "error") ∧
    (jsTruthy (getFieldQ p "message") = false →
      jsTruthy (getFieldQ p "error") = false →
      fetchTransactionsErrMsg p st = .str ("Failed to fetch transactions: " ++ st) ∧
      fetchProvidersErrMsg p st = .str ("Failed to fetch providers: " ++ st) ∧
      fetchMembershipsErrMsg p st = .str ("Failed to fetch memberships: " ++ st) ∧
      fetchSaccosErrMsg p st = .str ("Failed to fetch saccos: " ++ st)) ∧
    ((fetchMyTransactionsSettle ts (.httpError p st)).error
        = some (fetchTransactionsErrMsg p st)) ∧
    ((fetchMyTransactionsSettle ts .networkError).error
        = some (.str networkErrorMsg) ∧
     (fetchProvidersSettle prs .networkError).error = some (.str networkErrorMsg) ∧
     (fetchMembershipsSettle ms .networkError).error = some (.str networkErrorMsg) ∧
     (fetchSaccosSettle ss .networkError).error = some (.str networkErrorMsg)) := by
  refine ⟨?_, ?_, ?_, rfl, by simp [fetchMyTransactionsSettle, fetchProvidersSettle,
    fetchMembershipsSettle, fetchSaccosSettle]⟩
  · intro h1
    simp [fetchTransactionsErrMsg, fetchProvidersErrMsg, fetchMembershipsErrMsg,
      fetchSaccosErrMsg, jsOr, h1]
  · intro h1 h2
    simp [fetchTransactionsErrMsg, fetchProvidersErrMsg, fetchMembershipsErrMsg,
      fetchSaccosErrMsg, jsOr, h1, h2]
  · intro h1 h2
    simp [fetchTransactionsErrMsg, fetchProvidersErrMsg, fetchMembershipsErrMsg,
      fetchSaccosErrMsg, jsOr, h1, h2]

/-- Witness for C8 (amended): an error-field payload takes the second
probe. -/
theorem fetchErrorMessageHierarchyAmendedWitness :
    fetchTransactionsErrMsg (Json.obj [("error", Json.str "E")]) "X" = Json.str "E" ∧
    fetchProvidersErrMsg (Json.obj [("error", Json.str "E")]) "X" = Json.str "E" :=
  ⟨((fetchErrorMessageHierarchyAmended (Json.obj [("error", Json.str "E")]) "X"
      initialTransactionsState
      { providers := .arr [], isLoading := false, error := none }
      { memberships := .arr [], isLoading := false, error := none }
      { saccos := .arr [], isLoading := false, error := none }).2.1 rfl rfl).1,
   ((fetchErrorMessageHierarchyAmended (Json.obj [("error", Json.str "E")]) "X"
      initialTransactionsState
      { providers := .arr [], isLoading := false, error := none }
      { memberships := .arr [], isLoading := false, error := none }
      { saccos := .arr [], isLoading := false, error := none }).2.1 rfl rfl).2.1⟩

/-- C4: login extracts the access token by probing top-level access, then
top-level token, then nested tokens.access (refresh analogously from
refresh then tokens.refresh); a truthy token is persisted and the
authenticated flag set; with no extractable token login fails hard with
the no-access-token message and stays unauthenticated, while
registration succeeds without authenticating. -/
theorem loginTokenExtractionAndPersistence
    (s : AuthState) (body : Json) :
    (jsTruthy (getFieldQ body "access") = true →
      extractAccessToken body = getFieldQ body "access") ∧
    (jsTruthy (getFieldQ body "access") = false →
      jsTruthy (getFieldQ body "token") = true →
      extractAccessToken body = getFieldQ body "token") ∧
    (jsTruthy (getFieldQ body "access") = false →
      jsTruthy (getFieldQ body "token") = false →
      extractAccessToken body = getFieldQ (getFieldQ body "tokens") "access") ∧
    (jsTruthy (getFieldQ body "refresh") = true →
      extractRefreshToken body = getFieldQ body "refresh") ∧
    (jsTruthy (getFieldQ body "refresh") = false →
      extractRefreshToken body = getFieldQ (getFieldQ body "tokens") "refresh") ∧
    (jsTruthy (extractAccessToken body) = true →
      (login s (.success body)).1.storage.accessToken
          = some (jsToString (extractAccessToken body)) ∧
      (login s (.success body)).1.token = some (extractAccessToken body) ∧
      (login s (.success body)).1.isAuthenticated = true ∧
      (login s (.success body)).2 = .ok ()) ∧
    (jsTruthy (extractAccessToken body) = true →
      jsTruthy (extractRefreshToken body) = true →
      (login s (.success body)).1.storage.refreshToken
          = some (jsToString (extractRefreshToken body))) ∧
    (body ≠ .null → body ≠ .undef → jsTruthy (extractAccessToken body) = false →
      (login s (.success body)).2 = .error "No access token received from server" ∧
      (login s (.success body)).1.error
          = some (.str "No access token received from server") ∧
      (login s (.success body)).1.isAuthenticated = false) ∧
    (body ≠ .null → body ≠ .undef → jsTruthy (extractAccessToken body) = false →
      (registerUser s (.success body)).2 = .ok () ∧
      (registerUser s (.success body)).1.isAuthenticated = s.isAuthenticated ∧
      (registerUser s (.success body)).1.storage = s.storage) := by
  refine ⟨?_, ?_, ?_, ?_, ?_, ?_, ?_, ?_, ?_⟩
  · intro h1
    simp [extractAccessToken, jsOr, h1]
  · intro h1 h2
    simp [extractAccessToken, jsOr, h1, h2]
  · intro h1 h2
    simp [extractAccessToken, jsOr, h1, h2]
  · intro h1
    simp [extractRefreshToken, jsOr, h1]
  · intro h1
    simp [extractRefreshToken, jsOr, h1]
  · intro h
    cases body
    case null => simp [extractAccessToken, getFieldQ, jsOr, jsTruthy] at h
    case undef => simp [extractAccessToken, getFieldQ, jsOr, jsTruthy] at h
    all_goals simp [login, h, apply_ite]
  · intro h hr
    cases body
    case null => simp [extractAccessToken, getFieldQ, jsOr, jsTruthy] at h
    case undef => simp [extractAccessToken, getFieldQ, jsOr, jsTruthy] at h
    all_goals simp [login, h, hr]
  · intro hn hu h
    cases body <;>
      first
      | exact absurd rfl hn
      | exact absurd rfl hu
      | simp [login, loginCatch, jsToString, h]
  · intro hn hu h
    cases body <;>
      first
      | exact absurd rfl hn
      | exact absurd rfl hu
      | simp [registerUser, h]

/-- Witness for C4 at the concrete response shapes of the claim. -/
theorem loginTokenExtractionAndPersistenceWitness :
    (login initialAuthState
        (.success (Json.obj [("access", Json.str "A"),
                             ("refresh", Json.str "R")]))).1.storage.accessToken
      = some (jsToString (extractAccessToken
          (Json.obj [("access", Json.str "A"), ("refresh", Json.str "R")]))) ∧
    (login initialAuthState
        (.success (Json.obj [("access", Json.str "A"),
                             ("refresh", Json.str "R")]))).1.storage.refreshToken
      = some (jsToString (extractRefreshToken
          (Json.obj [("access", Json.str "A"), ("refresh", Json.str "R")]))) ∧
    extractAccessToken (Json.obj [("tokens", Json.obj [("access", Json.str "A")])])
      = Json.str "A" ∧
    (login initialAuthState (.success (Json.obj []))).2
      = .error "No access token received from server" ∧
    (registerUser initialAuthState (.success (Json.obj []))).2 = .ok () :=
  ⟨(loginTokenExtractionAndPersistence initialAuthState
      (Json.obj [("access", Json.str "A"), ("refresh", Json.str "R")])).2.2.2.2.2.1
        (by decide) |>.1,
   (loginTokenExtractionAndPersistence initialAuthState
      (Json.obj [("access", Json.str "A"), ("refresh", Json.str "R")])).2.2.2.2.2.2.1
        (by decide) (by decide),
   ((loginTokenExtractionAndPersistence initialAuthState
      (Json.obj [("tokens", Json.obj [("access", Json.str "A")])])).2.2.1
        rfl rfl).trans rfl,
   ((loginTokenExtractionAndPersistence initialAuthState (Json.obj [])).2.2.2.2.2.2.2.1
        (fun h => Json.noConfusion h) (fun h => Json.noConfusion h) rfl).1,
   ((loginTokenExtractionAndPersistence initialAuthState (Json.obj [])).2.2.2.2.2.2.2.2
        (fun h => Json.noConfusion h) (fun h => Json.noConfusion h) rfl).1⟩

/-- C9: every login failure — server rejection, network failure, setup
failure, a nullish body, or a response with no extractable access
token — clears both persisted token slots and resets the in-memory token
and authenticated flag to their unauthenticated values. -/
theorem loginFailureClearsSession
    (s : AuthState) (p : Json) (code : Nat) (st : String) (body : Json) :
    sessionCleared (login s (.httpError p code st)) ∧
    sessionCleared (login s .networkError) ∧
    sessionCleared (login s .setupError) ∧
    sessionCleared (login s (.success .null)) ∧
    sessionCleared (login s (.success .undef)) ∧
    (body ≠ .null → body ≠ .undef → jsTruthy (extractAccessToken body) = false →
      sessionCleared (login s (.success body))) := by
  refine ⟨?_, ?_, ?_, ?_, ?_, ?_⟩
  · simp [sessionCleared, login, loginCatch]
  · simp [sessionCleared, login, loginCatch]
  · simp [sessionCleared, login, loginCatch]
  · simp [sessionCleared, login, loginCatch]
  · simp [sessionCleared, login, loginCatch]
  · intro hn hu h
    cases body <;>
      first
      | exact absurd rfl hn
      | exact absurd rfl hu
      | simp [sessionCleared, login, loginCatch, h]

/-- Witness for C9: a failed login at a state holding a previously valid
session destroys that session. -/
theorem loginFailureClearsSessionWitness :
    sessionCleared (login
      { storage := { accessToken := some "A", refreshToken := some "R" },
        token := some (Json.str "A"), isAuthenticated := true, isLoading := false,
        isChangingPassword := false, error := none, passwordChangeError := none }
      (.httpError (Json.obj []) 500 "Server Error")) :=
  (loginFailureClearsSession
      { storage := { accessToken := some "A", refreshToken := some "R" },
        token := some (Json.str "A"), isAuthenticated := true, isLoading := false,
        isChangingPassword := false, error := none, passwordChangeError := none }
      (Json.obj []) 500 "Server Error" (Json.obj [])).1
